import Mathlib

/-!
Shallow embedding of `moltbook_agent.py`: the Pollinations chat client
(streaming aggregation), the Moltbook social client (`_make_request` and
its operations), the conversation-history handling of `ask_ai`, and the
decision-interpretation step of `autonomous_browse`.

Python strings are embedded as `List Char` (`PyStr`); the external
`json.loads` of the Python standard library is an abstract parameter
`parse : PyStr → Option JValue` (returning `none` exactly on
`json.JSONDecodeError`).  Network effects are explicit arguments: each
modelled operation receives the outcome the transport layer would
produce and returns the value the Python function returns, paired with
the number of HTTP requests it issued.
-/

namespace Moltbook

/-- Python `str` as a list of characters. -/
abbrev PyStr := List Char

/-- Python `s.upper()` (ASCII case, which is all this program uses). -/
def pyUpper (s : PyStr) : PyStr := s.map Char.toUpper

/-- Python `pat in s`: substring containment. -/
def pyIn (pat s : PyStr) : Bool := decide (pat <:+: s)

/-- Whitespace characters recognised by Python `str.strip()` (ASCII part). -/
def pyWs (c : Char) : Bool :=
  c = ' ' || c = '\t' || c = '\n' || c = '\r' || c = '\x0b' || c = '\x0c'

/-- Python `s.lstrip()`. -/
def lstrip (s : PyStr) : PyStr := s.dropWhile pyWs

/-- Python `s.rstrip()`. -/
def rstrip (s : PyStr) : PyStr := (s.reverse.dropWhile pyWs).reverse

/-- Python `s.strip()`. -/
def pyStrip (s : PyStr) : PyStr := rstrip (lstrip s)

/-- Python `s.split(c)` for a one-character separator: `"".split(c) = [""]`,
a trailing separator yields a trailing empty group. -/
def pySplit (c : Char) : PyStr → List PyStr
  | [] => [[]]
  | a :: rest =>
    if a = c then [] :: pySplit c rest
    else
      match pySplit c rest with
      | [] => [[a]]
      | g :: gs => (a :: g) :: gs

/-- Python `c.join(groups)` for a one-character separator. -/
def pyJoin (c : Char) : List PyStr → PyStr
  | [] => []
  | [g] => g
  | g :: gs => g ++ c :: pyJoin c gs

/-- Minimal JSON value model for the payloads this program inspects. -/
inductive JValue where
  | null : JValue
  | bool (b : Bool) : JValue
  | num (n : Int) : JValue
  | str (s : PyStr) : JValue
  | arr (elems : List JValue) : JValue
  | obj (fields : List (PyStr × JValue)) : JValue

/-- Dictionary lookup (`d.get(key)` / `key in d` combined). -/
def jLookup (fields : List (PyStr × JValue)) (key : PyStr) : Option JValue :=
  match fields with
  | [] => none
  | (k, v) :: rest => if k = key then some v else jLookup rest key

/-- Python truthiness of a JSON-decoded value. -/
def pyTruthy : JValue → Bool
  | .null => false
  | .bool b => b
  | .num n => n != 0
  | .str s => !s.isEmpty
  | .arr elems => !elems.isEmpty
  | .obj fields => !fields.isEmpty

/-- Python truthiness of an `Optional` JSON result (`None` is falsy). -/
def optTruthy : Option JValue → Bool
  | none => false
  | some j => pyTruthy j

/-- Python truthiness of the `Optional[str]` API key
(`if not self.moltbook.api_key`). -/
def pyTruthyKey : Option String → Bool
  | none => false
  | some s => !s.isEmpty

/-! ## PollinationsAI.chat -/

/-- Whether a JSON value equals the Python string `'choices'`
(Python `==` between `'choices'` and any non-string JSON value is
`False`). -/
def isChoicesStr : JValue → Bool
  | .str s => decide (s = "choices".toList)
  | _ => false

/-- Content contributed by one decoded streaming frame:
`data['choices'][0].get('delta', {}).get('content', '')`, guarded by
`'choices' in data and len(data['choices']) > 0` and by `if content:`.
`some c` means the loop appends `c` (possibly `[]`) and continues;
`none` means the Python extraction raises an uncaught exception
(`TypeError`/`AttributeError`/`KeyError` — only `json.JSONDecodeError`
is caught), killing the stream. -/
def deltaContent : JValue → Option PyStr
  | .null => none        -- `'choices' in None` raises TypeError
  | .bool _ => none      -- `'choices' in bool` raises TypeError
  | .num _ => none       -- `'choices' in number` raises TypeError
  | .str s =>
    -- `'choices' in data` is a substring test on a str payload;
    -- when it holds, `data['choices']` (str indexed by str) raises TypeError
    if pyIn ("choices".toList) s then none else some []
  | .arr elems =>
    -- `'choices' in data` is membership on a list payload;
    -- when it holds, `data['choices']` (list indexed by str) raises TypeError
    if elems.any isChoicesStr then none else some []
  | .obj fields =>
    match jLookup fields ("choices".toList) with
    | none => some []                -- `'choices' in data` is false: skip
    | some (.arr []) => some []      -- `len(data['choices']) > 0` is false
    | some (.arr (c0 :: _)) =>
      match c0 with
      | .obj cf =>
        match jLookup cf ("delta".toList) with
        | none => some []            -- `.get('delta', {})`: no content key
        | some (.obj df) =>
          match jLookup df ("content".toList) with
          | none => some []              -- `content = ''` is falsy: skip
          | some (.str s) => some s      -- `full_response += content`
          | some .null => some []        -- None is falsy: skip
          | some (.bool false) => some []
          | some (.bool true) => none    -- truthy non-str: `+=` raises TypeError
          | some (.num n) => if n = 0 then some [] else none
          | some (.arr es) => if es.isEmpty then some [] else none
          | some (.obj fs) => if fs.isEmpty then some [] else none
        | some _ => none             -- non-dict delta: `.get` raises AttributeError
      | _ => none                    -- non-dict choices[0]: `.get` raises AttributeError
    | some (.obj []) => some []      -- `len` of empty dict is 0
    | some (.obj (_ :: _)) => none   -- `data['choices'][0]` raises KeyError (str keys)
    | some (.str []) => some []      -- `len('')` is 0
    | some (.str (_ :: _)) => none   -- `'x'[0].get` raises AttributeError
    | some .null => none             -- `len(None)` raises TypeError
    | some (.bool _) => none         -- `len(bool)` raises TypeError
    | some (.num _) => none          -- `len(number)` raises TypeError

/-- One `data: ` payload: `json.loads` failure (`parse … = none`) is the
`except json.JSONDecodeError: continue` branch and contributes nothing;
otherwise the (possibly raising) extraction runs. -/
def frameContent (parse : PyStr → Option JValue) (ds : PyStr) : Option PyStr :=
  match parse ds with
  | none => some []
  | some j => deltaContent j

/-- The streaming accumulation loop of `PollinationsAI.chat`
(`for line in response.iter_lines(): …`), including the `[DONE]` break;
`none` is an uncaught exception escaping the loop. -/
def streamLoop (parse : PyStr → Option JValue) : List PyStr → Option PyStr
  | [] => some []
  | line :: rest =>
    if line = [] then streamLoop parse rest
    else if ("data: ".toList).isPrefixOf line then
      if pyStrip (line.drop 6) = "[DONE]".toList then some []
      else
        match frameContent parse (line.drop 6) with
        | none => none
        | some c =>
          match streamLoop parse rest with
          | none => none
          | some r => some (c ++ r)
    else streamLoop parse rest

/-- Whether a line is the stream-terminating sentinel frame. -/
def isDoneLine (line : PyStr) : Bool :=
  !line.isEmpty && ("data: ".toList).isPrefixOf line
    && decide (pyStrip (line.drop 6) = "[DONE]".toList)

/-- Specification-level contribution of one streamed line: `none` for
lines the loop skips (empty, not a `data: ` frame, or undecodable
JSON), `some` of the delta content of a well-formed decodable frame. -/
def lineContent (parse : PyStr → Option JValue) (line : PyStr) : Option PyStr :=
  if line = [] then none
  else if ("data: ".toList).isPrefixOf line then
    match parse (line.drop 6) with
    | none => none
    | some j => deltaContent j
  else none

/-- Non-streaming extraction `data['choices'][0]['message']['content']`;
`none` models the uncaught `KeyError`/`TypeError` on a deviant schema. -/
def msgContent : JValue → Option PyStr
  | .obj fields =>
    match jLookup fields ("choices".toList) with
    | some (.arr (c0 :: _)) =>
      match c0 with
      | .obj cf =>
        match jLookup cf ("message".toList) with
        | some (.obj mf) =>
          (match jLookup mf ("content".toList) with
           | some (.str s) => some s
           | _ => none)
        | _ => none
      | _ => none
    | _ => none
  | _ => none

/-- Outcome of the single HTTP POST issued by `PollinationsAI.chat`:
either a `requests` exception (timeout, connection error, or the
`raise_for_status` of a non-2xx reply), or a 2xx response carrying its
stream lines and, for the non-streaming path, the `response.json()`
result (`none` when the body is not valid JSON, which raises uncaught). -/
inductive ChatOutcome where
  | exn (msg : PyStr) : ChatOutcome
  | ok (lines : List PyStr) (body : Option JValue) : ChatOutcome

/-- `PollinationsAI.chat`: `some` is the returned string (the exception
handler returns `""` — it catches only `requests` exceptions), `none`
an uncaught exception: a raising frame shape on the streaming path, or
an invalid/deviant JSON document on the non-streaming path. -/
def chat (stream : Bool) (parse : PyStr → Option JValue) :
    ChatOutcome → Option PyStr
  | .exn _ => some []
  | .ok lines body =>
    if stream then streamLoop parse lines
    else
      match body with
      | none => none
      | some j => msgContent j

/-! ## MoltbookAgent: `_make_request` and the client operations -/

/-- Outcome of the one HTTP round trip `_make_request` would issue:
a `requests` exception (transport failure or `raise_for_status` on a
non-2xx status), or a 2xx response with its body text and, when the
body is non-empty, its `response.json()` value. -/
inductive HttpOutcome where
  | exn (msg : PyStr) : HttpOutcome
  | ok (body : PyStr) (parsed : JValue) : HttpOutcome

/-- `MoltbookAgent._make_request`: returns the Python result together
with the number of HTTP requests issued (`0` when the API key is falsy
or the method unsupported, `1` otherwise). -/
def make_request (apiKey : Option String) (method : String) (endpoint : String)
    (net : HttpOutcome) : Option JValue × Nat :=
  if pyTruthyKey apiKey = false then (none, 0)
  else if method = "GET" || method = "POST" || method = "PATCH" || method = "DELETE" then
    match net with
    | .exn _ => (none, 1)
    | .ok body parsed =>
      (if body = [] then some (JValue.obj []) else some parsed, 1)
  else (none, 0)

/-- `MoltbookAgent.get_profile` (endpoint `/agents/me`). -/
def get_profile (apiKey : Option String) (net : HttpOutcome) : Option JValue × Nat :=
  make_request apiKey "GET" "/agents/me" net

/-- `MoltbookAgent.get_feed` (endpoint `/posts`, query `sort`/`limit`). -/
def get_feed (apiKey : Option String) (sort : String) (limit : Nat)
    (net : HttpOutcome) : Option JValue × Nat :=
  make_request apiKey "GET" "/posts" net

/-- `MoltbookAgent.get_post`. -/
def get_post (apiKey : Option String) (postId : String) (net : HttpOutcome) :
    Option JValue × Nat :=
  make_request apiKey "GET" ("/posts/" ++ postId) net

/-- `MoltbookAgent.create_post` (body fields `submolt`, `title`, optional
`content`/`url`; the body does not affect the modelled result). -/
def create_post (apiKey : Option String) (submolt title : String)
    (content url : Option String) (net : HttpOutcome) : Option JValue × Nat :=
  make_request apiKey "POST" "/posts" net

/-- `MoltbookAgent.add_comment`. -/
def add_comment (apiKey : Option String) (postId content : String)
    (parentId : Option String) (net : HttpOutcome) : Option JValue × Nat :=
  make_request apiKey "POST" ("/posts/" ++ postId ++ "/comments") net

/-- `MoltbookAgent.upvote_post`. -/
def upvote_post (apiKey : Option String) (postId : String) (net : HttpOutcome) :
    Option JValue × Nat :=
  make_request apiKey "POST" ("/posts/" ++ postId ++ "/upvote") net

/-- `MoltbookAgent.downvote_post`. -/
def downvote_post (apiKey : Option String) (postId : String) (net : HttpOutcome) :
    Option JValue × Nat :=
  make_request apiKey "POST" ("/posts/" ++ postId ++ "/downvote") net

/-- `MoltbookAgent.search` (endpoint `/search`, query `q`/`limit`). -/
def search (apiKey : Option String) (q : String) (limit : Nat)
    (net : HttpOutcome) : Option JValue × Nat :=
  make_request apiKey "GET" "/search" net

/-- `MoltbookAgent.list_submolts`. -/
def list_submolts (apiKey : Option String) (net : HttpOutcome) :
    Option JValue × Nat :=
  make_request apiKey "GET" "/submolts" net

/-- `MoltbookAgent.create_submolt`. -/
def create_submolt (apiKey : Option String) (name description : String)
    (net : HttpOutcome) : Option JValue × Nat :=
  make_request apiKey "POST" "/submolts" net

/-- `MoltbookAgent.subscribe_submolt`. -/
def subscribe_submolt (apiKey : Option String) (submoltName : String)
    (net : HttpOutcome) : Option JValue × Nat :=
  make_request apiKey "POST" ("/submolts/" ++ submoltName ++ "/subscribe") net

/-! ## MoltbookAgent.ask_ai: conversation history -/

/-- One entry of `conversation_history` / one element of the `messages`
payload: a `{"role": …, "content": …}` dict. -/
structure Msg where
  role : String
  content : String
deriving DecidableEq

/-- The history slice `self.conversation_history[-10:]` added to the
outbound request. -/
def histWindow (hist : List Msg) : List Msg := hist.drop (hist.length - 10)

/-- The optional system message prepended by `ask_ai`
(`if system_prompt:` — a Python truthiness test, so an empty prompt is
also skipped). -/
def sysMessages : Option String → List Msg
  | none => []
  | some sp => if sp.isEmpty then [] else [⟨"system", sp⟩]

/-- The `messages` list `ask_ai` sends: optional system prompt, then the
last-10 window of the history, then the new user message. -/
def askAiMessages (hist : List Msg) (sys : Option String) (u : String) :
    List Msg :=
  sysMessages sys ++ histWindow hist ++ [⟨"user", u⟩]

/-- `MoltbookAgent.ask_ai`: the AI transport is the abstract function
`ai` from the sent messages to the returned text. Result: the returned
response and the updated `conversation_history`. -/
def ask_ai (hist : List Msg) (sys : Option String) (u : String)
    (ai : List Msg → String) : String × List Msg :=
  let messages := askAiMessages hist sys u
  let response := ai messages
  (response, hist ++ [⟨"user", u⟩, ⟨"assistant", response⟩])

/-! ## MoltbookAgent.autonomous_browse: decision interpretation -/

/-- A network-visible effect of one browsing pass. -/
inductive BrowseEvent where
  | chatCall : BrowseEvent
  | upvoteCall (postId : PyStr) : BrowseEvent
  | commentCall (postId : PyStr) (text : PyStr) : BrowseEvent
deriving DecidableEq

/-- The comment text extracted in the COMMENT branch:
`lines = decision.strip().split('\n')` and
`'\n'.join(lines[1:]).strip() if len(lines) > 1 else "Interesting post!"`. -/
def commentText (decision : PyStr) : PyStr :=
  let lines := pySplit '\n' (pyStrip decision)
  if lines.length > 1 then pyStrip (pyJoin '\n' (lines.drop 1))
  else "Interesting post!".toList

/-- The Interpret/Act step for one feed item: the `if "UPVOTE" in
decision.upper() … elif "COMMENT" in decision.upper() … else skip`
cascade, returning the social-network calls it issues. -/
def itemEvents (postId : PyStr) (decision : PyStr) : List BrowseEvent :=
  if pyIn ("UPVOTE".toList) (pyUpper decision) then
    [BrowseEvent.upvoteCall postId]
  else if pyIn ("COMMENT".toList) (pyUpper decision) then
    [BrowseEvent.commentCall postId (commentText decision)]
  else []

/-- `post.get('id', '')` on a feed item. -/
def postIdOf : JValue → PyStr
  | .obj fields =>
    match jLookup fields ("id".toList) with
    | some (.str s) => s
    | _ => []
  | _ => []

/-- One browsing pass of `MoltbookAgent.autonomous_browse`, as the list
of network calls issued after the profile fetch: abort when the profile
is falsy, when the feed result is falsy, or when it is not a list;
otherwise iterate over the first 5 posts, issuing one chat call per item
(`oracle i` is the decision text the AI returns for item `i`) followed by
the calls of the Interpret step. -/
def browsePass (profile feed : Option JValue) (oracle : Nat → PyStr) :
    List BrowseEvent :=
  match profile with
  | none => []
  | some p =>
    if pyTruthy p = false then []
    else
      match feed with
      | none => []
      | some (JValue.arr posts) =>
        if posts.isEmpty then []
        else
          ((posts.take 5).enum.map
            (fun ip => BrowseEvent.chatCall :: itemEvents (postIdOf ip.2) (oracle ip.1))).flatten
      | some _ => []

/-! ## Concrete data for evaluating the model -/

/-- A concrete stand-in for `json.loads` mapping three payloads to
well-formed delta frames and everything else to a decode failure. -/
def demoParse : PyStr → Option JValue := fun ds =>
  if ds = "f1".toList then
    some (JValue.obj [("choices".toList,
      JValue.arr [JValue.obj [("delta".toList,
        JValue.obj [("content".toList, JValue.str ("Hel".toList))])]])])
  else if ds = "f2".toList then
    some (JValue.obj [("choices".toList,
      JValue.arr [JValue.obj [("delta".toList,
        JValue.obj [("content".toList, JValue.str ("lo wo".toList))])]])])
  else if ds = "f3".toList then
    some (JValue.obj [("choices".toList,
      JValue.arr [JValue.obj [("delta".toList,
        JValue.obj [("content".toList, JValue.str ("rld".toList))])]])])
  else none

/-- A concrete stream: three well-formed frames interleaved with a
non-`data: ` line, an empty keep-alive line, and an undecodable frame. -/
def demoFrames : List PyStr :=
  ["data: f1".toList, "noise".toList, [], "data: bad json".toList,
   "data: f2".toList, "data: f3".toList]

/-! ## Helper lemmas on the Python string primitives -/

theorem pySplit_ne_nil (c : Char) (l : PyStr) : pySplit c l ≠ [] := by
  induction l with
  | nil => simp [pySplit]
  | cons a rest ih =>
    simp only [pySplit]
    split
    · simp
    · cases h : pySplit c rest with
      | nil => simp
      | cons g gs => simp

theorem pySplit_of_not_mem (c : Char) (l : PyStr) (h : c ∉ l) :
    pySplit c l = [l] := by
  induction l with
  | nil => rfl
  | cons a rest ih =>
    have hac : ¬ a = c := fun hh => h (hh ▸ List.mem_cons_self a rest)
    have hr : c ∉ rest := fun hh => h (List.mem_cons_of_mem a hh)
    simp only [pySplit, if_neg hac, ih hr]

theorem pySplit_append_cons (c : Char) (xs ys : PyStr) (h : c ∉ xs) :
    pySplit c (xs ++ c :: ys) = xs :: pySplit c ys := by
  induction xs with
  | nil => simp [pySplit]
  | cons a xs' ih =>
    have hac : ¬ a = c := fun hh => h (hh ▸ List.mem_cons_self a xs')
    have hx : c ∉ xs' := fun hh => h (List.mem_cons_of_mem a hh)
    simp only [List.cons_append, pySplit, if_neg hac, List.append_eq, ih hx]

theorem pyJoin_pySplit (c : Char) (l : PyStr) : pyJoin c (pySplit c l) = l := by
  induction l with
  | nil => rfl
  | cons a rest ih =>
    by_cases hac : a = c
    · subst hac
      rcases hg : pySplit a rest with _ | ⟨g, gs⟩
      · exact absurd hg (pySplit_ne_nil a rest)
      · rw [hg] at ih
        simp only [pySplit, if_pos rfl, hg, pyJoin, List.nil_append]
        rw [ih]
    · rcases hg : pySplit c rest with _ | ⟨g, gs⟩
      · exact absurd hg (pySplit_ne_nil c rest)
      · rw [hg] at ih
        simp only [pySplit, if_neg hac, hg]
        cases gs with
        | nil => simpa [pyJoin] using congrArg (a :: ·) ih
        | cons g2 gs2 =>
          simp only [pyJoin, List.cons_append] at ih ⊢
          rw [ih]

theorem rstrip_append (a b : PyStr) (h : rstrip b ≠ []) :
    rstrip (a ++ b) = a ++ rstrip b := by
  have hb : (List.dropWhile pyWs b.reverse).isEmpty = false := by
    rcases hh : List.dropWhile pyWs b.reverse with _ | ⟨x, xs⟩
    · exact absurd (by simp [rstrip, hh]) h
    · rfl
  simp only [rstrip, List.reverse_append, List.dropWhile_append, hb,
    Bool.false_eq_true, if_false, List.reverse_reverse]

theorem pyStrip_sublist (l : PyStr) : (pyStrip l).Sublist l := by
  have h1 : (lstrip l).Sublist l := List.dropWhile_sublist pyWs
  have h2 : (rstrip (lstrip l)).Sublist (lstrip l) := by
    have := (List.dropWhile_sublist (l := (lstrip l).reverse) pyWs).reverse
    simpa [rstrip] using this
  exact h2.trans h1

/-! ## Claim theorems -/

/-- C2: for every conversation history, the history slice included in the
request `ask_ai` builds contains at most 10 entries; those entries are a
suffix of the history (the most recent ones, oldest dropped first — the
rest of the history is the part dropped in front); after 100 or more
appended turns the window is exactly 10; and the outbound `messages`
payload contains exactly that window between the optional system message
and the new user message. -/
theorem C2_history_window (hist : List Msg) (sys : Option String) (u : String) :
    (histWindow hist).length ≤ 10 ∧
    hist.take (hist.length - 10) ++ histWindow hist = hist ∧
    (100 ≤ hist.length → (histWindow hist).length = 10) ∧
    askAiMessages hist sys u = sysMessages sys ++ histWindow hist ++ [⟨"user", u⟩] := by
  refine ⟨?_, ?_, ?_, rfl⟩
  · simp only [histWindow, List.length_drop]; omega
  · exact List.take_append_drop _ hist
  · intro h; simp only [histWindow, List.length_drop]; omega

/-- C2 witness: after 100 appended turns the request window has exactly
10 entries. -/
theorem C2_history_window_witness :
    (histWindow (List.replicate 100 (Msg.mk "user" "x"))).length = 10 :=
  (C2_history_window (List.replicate 100 (Msg.mk "user" "x")) none "q").2.2.1
    (by simp)

/-- C9: every `ask_ai` call appends exactly two entries to
`conversation_history` — the user message then the assistant reply, in
that order — for every AI transport (including one returning the empty
string), leaving all earlier entries unchanged. -/
theorem C9_ask_ai_appends_two (hist : List Msg) (sys : Option String)
    (u : String) (ai : List Msg → String) :
    (ask_ai hist sys u ai).2.length = hist.length + 2 ∧
    (ask_ai hist sys u ai).2.take hist.length = hist ∧
    (ask_ai hist sys u ai).2.drop hist.length =
      [⟨"user", u⟩, ⟨"assistant", (ask_ai hist sys u ai).1⟩] := by
  refine ⟨by simp [ask_ai], ?_, ?_⟩
  · show (hist ++ [_, _]).take hist.length = hist
    exact List.take_left hist _
  · show (hist ++ [_, _]).drop hist.length = _
    exact List.drop_left hist _

/-- C4: with a falsy API key, every Social Client operation returns
`None` and issues zero HTTP requests. -/
theorem C4_missing_key_no_network (k : Option String)
    (hk : pyTruthyKey k = false) (net : HttpOutcome)
    (s t c n d q pid : String) (lim : Nat) (oc ou op : Option String) :
    get_profile k net = (none, 0) ∧
    get_feed k s lim net = (none, 0) ∧
    get_post k pid net = (none, 0) ∧
    create_post k s t oc ou net = (none, 0) ∧
    add_comment k pid c op net = (none, 0) ∧
    upvote_post k pid net = (none, 0) ∧
    downvote_post k pid net = (none, 0) ∧
    search k q lim net = (none, 0) ∧
    list_submolts k net = (none, 0) ∧
    create_submolt k n d net = (none, 0) ∧
    subscribe_submolt k n net = (none, 0) := by
  have base : ∀ m e, make_request k m e net = (none, 0) := by
    intro m e
    simp [make_request, hk]
  simp only [get_profile, get_feed, get_post, create_post, add_comment,
    upvote_post, downvote_post, search, list_submolts, create_submolt,
    subscribe_submolt, base, and_self]

/-- C4 witness: with no API key set, all eleven operations return
`(none, 0)` on a concrete transport outcome. -/
theorem C4_missing_key_no_network_witness :
    get_profile none (HttpOutcome.exn []) = (none, 0) ∧
    get_feed none "hot" 25 (HttpOutcome.exn []) = (none, 0) ∧
    get_post none "p1" (HttpOutcome.exn []) = (none, 0) ∧
    create_post none "hot" "title" none none (HttpOutcome.exn []) = (none, 0) ∧
    add_comment none "p1" "text" none (HttpOutcome.exn []) = (none, 0) ∧
    upvote_post none "p1" (HttpOutcome.exn []) = (none, 0) ∧
    downvote_post none "p1" (HttpOutcome.exn []) = (none, 0) ∧
    search none "query" 25 (HttpOutcome.exn []) = (none, 0) ∧
    list_submolts none (HttpOutcome.exn []) = (none, 0) ∧
    create_submolt none "name" "desc" (HttpOutcome.exn []) = (none, 0) ∧
    subscribe_submolt none "name" (HttpOutcome.exn []) = (none, 0) :=
  C4_missing_key_no_network none rfl (HttpOutcome.exn [])
    "hot" "title" "text" "name" "desc" "query" "p1" 25 none none none

/-- C5: when the decision text contains both tokens UPVOTE and COMMENT
(case-insensitively), the check order makes UPVOTE win: the only call
issued for the item is the upvote, and no comment call is made. -/
theorem C5_upvote_wins (postId decision : PyStr)
    (h1 : pyIn ("UPVOTE".toList) (pyUpper decision) = true)
    (h2 : pyIn ("COMMENT".toList) (pyUpper decision) = true) :
    itemEvents postId decision = [BrowseEvent.upvoteCall postId] := by
  unfold itemEvents
  rw [h1]
  simp

/-- C5 witness on a reply containing both tokens. -/
theorem C5_upvote_wins_witness :
    itemEvents ("p".toList) ("UPVOTE, but COMMENT too".toList) =
      [BrowseEvent.upvoteCall ("p".toList)] :=
  C5_upvote_wins ("p".toList) ("UPVOTE, but COMMENT too".toList)
    (by decide) (by decide)

/-- C6: a decision that reaches the COMMENT branch with no line after
the first one submits the fixed fallback comment text
"Interesting post!". -/
theorem C6_comment_fallback (postId decision : PyStr)
    (h1 : pyIn ("UPVOTE".toList) (pyUpper decision) = false)
    (h2 : pyIn ("COMMENT".toList) (pyUpper decision) = true)
    (h3 : '\n' ∉ decision) :
    itemEvents postId decision =
      [BrowseEvent.commentCall postId ("Interesting post!".toList)] := by
  have hs : '\n' ∉ pyStrip decision :=
    fun hm => h3 ((pyStrip_sublist decision).subset hm)
  have hsp : pySplit '\n' (pyStrip decision) = [pyStrip decision] :=
    pySplit_of_not_mem _ _ hs
  unfold itemEvents
  rw [h1, h2]
  simp [commentText, hsp]

/-- C6 witness: the bare reply "COMMENT" produces the fallback comment. -/
theorem C6_comment_fallback_witness :
    itemEvents ("p".toList) ("COMMENT".toList) =
      [BrowseEvent.commentCall ("p".toList) ("Interesting post!".toList)] :=
  C6_comment_fallback ("p".toList) ("COMMENT".toList)
    (by decide) (by decide) (by decide)

/-- C7: a feed fetch returning `None` or an empty list aborts the
browsing pass before the per-item loop: no chat, upvote, or comment call
is issued, whatever the profile and the AI decisions would have been. -/
theorem C7_empty_feed_aborts (profile : Option JValue) (oracle : Nat → PyStr)
    (feed : Option JValue)
    (h : feed = none ∨ feed = some (JValue.arr [])) :
    browsePass profile feed oracle = [] := by
  rcases h with h | h <;> subst h <;> cases profile <;> simp [browsePass]

/-- C7 witness: a truthy profile with a `None` feed produces no calls. -/
theorem C7_empty_feed_aborts_witness :
    browsePass (some (JValue.obj [("name".toList, JValue.str ("a".toList))]))
      none (fun _ => []) = [] :=
  C7_empty_feed_aborts _ _ none (Or.inl rfl)

/-- C8: every transport failure of the chat request (timeout, connection
error, or non-2xx status — all raised as a `requests` exception) makes
`chat` return the empty string, in both streaming and non-streaming
modes, and the empty decision text downstream yields Skip: no upvote or
comment call. -/
theorem C8_transport_failure_empty (stream : Bool)
    (parse : PyStr → Option JValue) (m postId : PyStr) :
    chat stream parse (ChatOutcome.exn m) = some [] ∧
    itemEvents postId [] = [] := by
  exact ⟨rfl, by simp [itemEvents, pyIn, pyUpper]⟩

/-- C10: a 2xx response with an empty body makes `_make_request` return
the empty dict rather than `None`; since the empty dict is falsy, the
caller's conditional (here `add_comment`'s success check) treats such a
successful call exactly like a failed one. -/
theorem C10_empty_body_truthiness (k : Option String)
    (hk : pyTruthyKey k = true) (e pid c : String) (op : Option String)
    (parsed : JValue) (m : PyStr) :
    make_request k "POST" e (HttpOutcome.ok [] parsed) =
      (some (JValue.obj []), 1) ∧
    (add_comment k pid c op (HttpOutcome.ok [] parsed)).1 =
      some (JValue.obj []) ∧
    optTruthy (add_comment k pid c op (HttpOutcome.ok [] parsed)).1 =
      optTruthy (add_comment k pid c op (HttpOutcome.exn m)).1 := by
  have base : ∀ ep, make_request k "POST" ep (HttpOutcome.ok [] parsed) =
      (some (JValue.obj []), 1) := by
    intro ep
    simp [make_request, hk]
  have bexn : ∀ ep, make_request k "POST" ep (HttpOutcome.exn m) = (none, 1) := by
    intro ep
    simp [make_request, hk]
  refine ⟨base e, ?_, ?_⟩
  · simp [add_comment, base]
  · simp [add_comment, base, bexn, optTruthy, pyTruthy]

/-- C10 witness at a concrete key and request. -/
theorem C10_empty_body_truthiness_witness :
    make_request (some "key") "POST" "/posts/p1/comments"
      (HttpOutcome.ok [] JValue.null) = (some (JValue.obj []), 1) ∧
    (add_comment (some "key") "p1" "Nice" none
      (HttpOutcome.ok [] JValue.null)).1 = some (JValue.obj []) ∧
    optTruthy (add_comment (some "key") "p1" "Nice" none
      (HttpOutcome.ok [] JValue.null)).1 =
      optTruthy (add_comment (some "key") "p1" "Nice" none
        (HttpOutcome.exn [])).1 :=
  C10_empty_body_truthiness (some "key") rfl "/posts/p1/comments" "p1" "Nice"
    none JValue.null []

/-- C1: in streaming mode, for every line sequence terminated by the
`[DONE]` sentinel whose decodable `data: ` payloads are all of
well-formed (non-raising) shape, `chat` returns the concatenation, in
arrival order, of the delta-content fields of the `data: ` frames; a
frame whose payload is not valid JSON (`parse` returns `none`) is
skipped while the remaining frames are still aggregated, and the
sentinel terminates aggregation normally, yielding the accumulated text
rather than an error.  (Valid-JSON payloads of deviant shape raise an
uncaught exception in the Python loop — `frameContent … = none` in the
model — and are outside the claim, hence the `hwf` hypothesis.) -/
theorem C1_stream_aggregation (parse : PyStr → Option JValue)
    (frames : List PyStr) (body : Option JValue)
    (h : ∀ l ∈ frames, isDoneLine l = false)
    (hwf : ∀ l ∈ frames, l ≠ [] → ("data: ".toList).isPrefixOf l = true →
      frameContent parse (l.drop 6) ≠ none) :
    chat true parse (ChatOutcome.ok (frames ++ ["data: [DONE]".toList]) body) =
      some ((frames.filterMap (lineContent parse)).flatten) := by
  have main : ∀ fs : List PyStr, (∀ l ∈ fs, isDoneLine l = false) →
      (∀ l ∈ fs, l ≠ [] → ("data: ".toList).isPrefixOf l = true →
        frameContent parse (l.drop 6) ≠ none) →
      streamLoop parse (fs ++ ["data: [DONE]".toList]) =
        some ((fs.filterMap (lineContent parse)).flatten) := by
    intro fs
    induction fs with
    | nil =>
      intro _ _
      simp only [List.nil_append, List.filterMap_nil, List.flatten_nil]
      rfl
    | cons l ls ih =>
      intro hh hw
      have hl := hh l (List.mem_cons_self l ls)
      have hwl := hw l (List.mem_cons_self l ls)
      have hls : ∀ x ∈ ls, isDoneLine x = false :=
        fun x hx => hh x (List.mem_cons_of_mem l hx)
      have hws : ∀ x ∈ ls, x ≠ [] → ("data: ".toList).isPrefixOf x = true →
          frameContent parse (x.drop 6) ≠ none :=
        fun x hx => hw x (List.mem_cons_of_mem l hx)
      rw [List.cons_append]
      rw [show streamLoop parse (l :: (ls ++ ["data: [DONE]".toList])) =
            if l = [] then streamLoop parse (ls ++ ["data: [DONE]".toList])
            else if ("data: ".toList).isPrefixOf l then
              if pyStrip (l.drop 6) = "[DONE]".toList then some []
              else
                match frameContent parse (l.drop 6) with
                | none => none
                | some c =>
                  match streamLoop parse (ls ++ ["data: [DONE]".toList]) with
                  | none => none
                  | some r => some (c ++ r)
            else streamLoop parse (ls ++ ["data: [DONE]".toList]) from rfl]
      rw [List.filterMap_cons]
      by_cases he : l = []
      · rw [if_pos he, ih hls hws,
          show lineContent parse l = none from by
            simp only [lineContent]; rw [if_pos he]]
      · rw [if_neg he]
        have hle : l.isEmpty = false := by
          cases l with
          | nil => exact absurd rfl he
          | cons a as => rfl
        by_cases hp : ("data: ".toList).isPrefixOf l = true
        · rw [if_pos hp]
          have hd : ¬ pyStrip (l.drop 6) = "[DONE]".toList := by
            intro hdd
            have ht : isDoneLine l = true := by
              simp only [isDoneLine, hle, hp, hdd]
              simp
            rw [ht] at hl
            exact Bool.noConfusion hl
          rw [if_neg hd]
          obtain ⟨c, hc⟩ : ∃ c, frameContent parse (l.drop 6) = some c := by
            rcases hfc : frameContent parse (l.drop 6) with _ | c
            · exact absurd hfc (hwl he hp)
            · exact ⟨c, rfl⟩
          rw [hc, ih hls hws]
          cases hpp : parse (l.drop 6) with
          | none =>
            have hc0 : [] = c := by
              simp only [frameContent, hpp, Option.some.injEq] at hc
              exact hc
            rw [show lineContent parse l = none from by
              simp only [lineContent, hpp]; rw [if_neg he, if_pos hp]]
            rw [← hc0]
            simp
          | some j =>
            have hcd : deltaContent j = some c := by
              simp only [frameContent, hpp] at hc
              exact hc
            rw [show lineContent parse l = some c from by
              simp only [lineContent, hpp]
              rw [if_neg he, if_pos hp]
              exact hcd]
            simp
        · rw [if_neg hp, ih hls hws,
            show lineContent parse l = none from by
              simp only [lineContent]; rw [if_neg he, if_neg hp]]
  show streamLoop parse (frames ++ ["data: [DONE]".toList]) = _
  exact main frames h hwf

/-- C1 witness: on a concrete stream — three well-formed frames, a
non-`data: ` line, an empty line, an undecodable frame, then the
sentinel — `chat` returns exactly the concatenated contents. -/
theorem C1_stream_aggregation_witness :
    chat true demoParse
      (ChatOutcome.ok (demoFrames ++ ["data: [DONE]".toList]) none) =
      some ("Hello world".toList) :=
  (C1_stream_aggregation demoParse demoFrames none (by decide)
    (by decide)).trans (by decide)

/-- C3 counterexample: the decision text "COMMENT\nUPVOTE this" is
"COMMENT" followed by a newline and further text, yet the action taken
is Upvote — not Comment with the text after the first line — because
the UPVOTE check runs first on the whole reply. -/
theorem C3_counterexample :
    itemEvents ("p".toList) ("COMMENT\nUPVOTE this".toList) =
      [BrowseEvent.upvoteCall ("p".toList)] ∧
    itemEvents ("p".toList) ("COMMENT\nUPVOTE this".toList) ≠
      [BrowseEvent.commentCall ("p".toList) ("UPVOTE this".toList)] := by
  decide

/-- C3 (amended): if the decision text contains "UPVOTE"
(case-insensitively) the action is Upvote and no comment call is made,
even when the text also has the COMMENT shape; if the text is "COMMENT"
followed by a newline and further nonempty text that neither begins nor
ends with whitespace, and the whole text does not contain "UPVOTE", the
action is Comment with exactly the text after the first line (in
general the code strips surrounding whitespace from that text); if the
text contains neither token, the action is Skip and no upvote or
comment call is issued. -/
theorem C3_interpret_cases (postId d rest : PyStr) :
    (pyIn ("UPVOTE".toList) (pyUpper d) = true →
      itemEvents postId d = [BrowseEvent.upvoteCall postId]) ∧
    (pyIn ("UPVOTE".toList) (pyUpper ("COMMENT\n".toList ++ rest)) = false →
      lstrip rest = rest → rstrip rest = rest → rest ≠ [] →
      itemEvents postId ("COMMENT\n".toList ++ rest) =
        [BrowseEvent.commentCall postId rest]) ∧
    (pyIn ("UPVOTE".toList) (pyUpper d) = false →
      pyIn ("COMMENT".toList) (pyUpper d) = false →
      itemEvents postId d = []) := by
  refine ⟨?_, ?_, ?_⟩
  · intro h1
    unfold itemEvents
    rw [h1]
    simp
  · intro hU hl hr hne
    have hX : pyUpper ("COMMENT\n".toList ++ rest)
        = "COMMENT".toList ++ '\n' :: pyUpper rest := by
      show List.map Char.toUpper ("COMMENT\n".toList ++ rest) = _
      rw [List.map_append]
      rw [show List.map Char.toUpper ("COMMENT\n".toList)
            = "COMMENT".toList ++ ['\n'] from by decide]
      rw [List.append_assoc, List.singleton_append]
      rfl
    have hC : pyIn ("COMMENT".toList)
        (pyUpper ("COMMENT\n".toList ++ rest)) = true := by
      unfold pyIn
      rw [hX, decide_eq_true_eq]
      exact ⟨[], '\n' :: pyUpper rest, by rw [List.nil_append]⟩
    have hsw : pyStrip ("COMMENT\n".toList ++ rest)
        = "COMMENT".toList ++ '\n' :: rest := by
      unfold pyStrip
      rw [show lstrip ("COMMENT\n".toList ++ rest)
            = "COMMENT\n".toList ++ rest from by
        unfold lstrip
        rw [show ("COMMENT\n".toList ++ rest)
              = 'C' :: ("OMMENT\n".toList ++ rest) from by
          rw [show "COMMENT\n".toList = 'C' :: "OMMENT\n".toList from by decide]
          rfl]
        rw [List.dropWhile_cons, if_neg (by decide : ¬ pyWs 'C' = true)]]
      rw [rstrip_append _ _ (by rw [hr]; exact hne), hr]
      rw [show "COMMENT\n".toList = "COMMENT".toList ++ ['\n'] from by decide]
      rw [List.append_assoc, List.singleton_append]
    have hlines : pySplit '\n' (pyStrip ("COMMENT\n".toList ++ rest))
        = "COMMENT".toList :: pySplit '\n' rest := by
      rw [hsw]
      exact pySplit_append_cons '\n' ("COMMENT".toList) rest (by decide)
    have hct : commentText ("COMMENT\n".toList ++ rest) = rest := by
      simp only [commentText]
      rw [hlines]
      rcases hg : pySplit '\n' rest with _ | ⟨g, gs⟩
      · exact absurd hg (pySplit_ne_nil _ _)
      · have hjoin : pyJoin '\n' (g :: gs) = rest := by
          rw [← hg]
          exact pyJoin_pySplit '\n' rest
        rw [if_pos (by simp)]
        rw [show (("COMMENT".toList : PyStr) :: g :: gs).drop 1 = g :: gs from rfl]
        rw [hjoin]
        unfold pyStrip
        rw [hl, hr]
    unfold itemEvents
    rw [hU, hC, hct]
    simp
  · intro h1 h2
    unfold itemEvents
    rw [h1, h2]
    simp

/-- C3 witness: the well-behaved reply "COMMENT" + newline +
"Great point!" yields a single comment call with exactly that text. -/
theorem C3_interpret_cases_witness :
    itemEvents ("p".toList) ("COMMENT\n".toList ++ "Great point!".toList) =
      [BrowseEvent.commentCall ("p".toList) ("Great point!".toList)] :=
  (C3_interpret_cases ("p".toList) [] ("Great point!".toList)).2.1
    (by decide) (by decide) (by decide) (by decide)

end Moltbook
